import Mathlib

/-!
Shallow embedding of `src/version_checker.py` (adfinis/helm-version-checker).

Python/YAML values that flow through the script (results of `yaml.safe_load`
and JSON decoding) are modelled by the inductive `YVal`; YAML mappings are
association lists with Python insertion order and unique keys, lookup being
first-match.  Network and filesystem effects are modelled by oracles passed in
a `World` record, and every `print` site of the source is mirrored by an event
constructor so that logging and network traffic are observable.
-/

namespace VersionChecker

/-- A parsed YAML/JSON value as produced by `yaml.safe_load` / `response.json()`:
Python `None`, `str`, `int`, `list`, or `dict` (string-keyed, in order). -/
inductive YVal where
  | null
  | str (s : String)
  | int (n : Int)
  | list (xs : List YVal)
  | map (kvs : List (String × YVal))

/-- First-match lookup in an association list, modelling Python `dict.get(k)`
for the string-keyed dictionaries produced by the YAML/JSON parsers. -/
def lookupKV : List (String × YVal) → String → Option YVal
  | [], _ => none
  | (k, v) :: rest, key => if k = key then some v else lookupKV rest key

mutual
/-- Python `str()` of a value: `str(None) = "None"`, strings unchanged,
ints in decimal, containers via their `repr` (quote escaping elided). -/
def pyStr : YVal → String
  | .null => "None"
  | .str s => s
  | .int n => toString n
  | .list xs => "[" ++ pyReprList xs ++ "]"
  | .map kvs => "\x7b" ++ pyReprMap kvs ++ "\x7d"

/-- Python `repr()` of a value (strings quoted; escaping elided). -/
def pyRepr : YVal → String
  | .null => "None"
  | .str s => "\x27" ++ s ++ "\x27"
  | .int n => toString n
  | .list xs => "[" ++ pyReprList xs ++ "]"
  | .map kvs => "\x7b" ++ pyReprMap kvs ++ "\x7d"

/-- Comma-joined `repr`s of the elements of a Python list. -/
def pyReprList : List YVal → String
  | [] => ""
  | [x] => pyRepr x
  | x :: y :: xs => pyRepr x ++ ", " ++ pyReprList (y :: xs)

/-- Comma-joined `repr`s of the key/value pairs of a Python dict. -/
def pyReprMap : List (String × YVal) → String
  | [] => ""
  | [(k, v)] => "\x27" ++ k ++ "\x27: " ++ pyRepr v
  | (k, v) :: kv :: kvs => "\x27" ++ k ++ "\x27: " ++ pyRepr v ++ ", " ++ pyReprMap (kv :: kvs)
end

/-- Python truthiness of a value: `None`, `""`, `0`, `[]` and `{}` are falsy. -/
def YVal.truthy : YVal → Bool
  | .null => false
  | .str s => s != ""
  | .int n => n != 0
  | .list xs => !xs.isEmpty
  | .map kvs => !kvs.isEmpty

/-- Python `!=` between a value and a string: false exactly when the value is
that string (no cross-type coercion in Python equality for these types). -/
def YVal.neqStr : YVal → String → Bool
  | .str s, t => s != t
  | _, _ => true

/-- Whether a value is a Python dict (`isinstance(details, dict)`). -/
def YVal.isMap : YVal → Bool
  | .map _ => true
  | _ => false

/-- String content of `", ".join(assignees)` for a list of strings (the only
shape the script sends as assignees); other values are rendered via `pyStr`. -/
def pyJoin : YVal → String
  | .list xs => String.intercalate ", " (xs.map pyStr)
  | v => pyStr v

/-- `d.get(key)` on an `AppDetails`-style dict, coerced to `Optional[str]` as
the annotations in the source declare for `repoURL` and `chart`; a YAML `null`
value is Python `None`, i.e. the same as an absent key. -/
def getStr? (d : List (String × YVal)) (k : String) : Option String :=
  match lookupKV d k with
  | some (.str s) => some s
  | _ => none

/-- Outcome of opening and `yaml.safe_load`-ing a file at a given path. -/
inductive FileRead where
  | missing
  | parseError
  | parsed (v : YVal)

/-- Python `v.get(k, dflt)`: only dicts have `.get`; on any other value the
attribute access raises (modelled as `.error`), which the source catches with
its generic `except Exception` handler. -/
def ymGet (v : YVal) (k : String) (dflt : YVal) : Except Unit YVal :=
  match v with
  | .map kvs => .ok ((lookupKV kvs k).getD dflt)
  | _ => .error ()

/-- Outcome of `requests.get` on a chart-index URL followed by
`raise_for_status` and `yaml.safe_load` of the body: either a
`RequestException` (timeout, DNS failure, non-2xx status) or the parsed
structured document. -/
inductive FetchRes where
  | failure
  | success (body : YVal)

/-- Python subscript `v[k]` with a string key: succeeds only on a dict that
has the key; a missing key raises `KeyError` and a non-dict raises
`TypeError`, both caught by the `except (KeyError, IndexError,
TypeError)` handler and modelled as `.error`. -/
def subscriptStr (v : YVal) (k : String) : Except Unit YVal :=
  match v with
  | .map kvs =>
    match lookupKV kvs k with
    | some x => .ok x
    | none => .error ()
  | _ => .error ()

/-- Python subscript `v[0]`: head of a non-empty list, first character of a
non-empty string; everything else raises (`IndexError`/`KeyError`/`TypeError`),
caught by the same handler. -/
def subscriptZero : YVal → Except Unit YVal
  | .list (x :: _) => .ok x
  | .str s => if s.isEmpty then .error () else .ok (.str (String.singleton s.front))
  | _ => .error ()

/-- The lookup `index_data["entries"][chart_name][0]["version"]` from
`get_latest_helm_version`, with the Python exception behavior of each subscript. -/
def extractVersion (body : YVal) (chart_name : String) : Except Unit YVal :=
  match subscriptStr body "entries" with
  | .error e => .error e
  | .ok entries =>
    match subscriptStr entries chart_name with
    | .error e => .error e
    | .ok chartEntries =>
      match subscriptZero chartEntries with
      | .error e => .error e
      | .ok first => subscriptStr first "version"

/-- One observable event per `print` site, network call, or issue-post of the
source script, in program order. -/
inductive Ev where
  | httpGet (url : String)
  | listIssuesPage
  | httpPost (url title : String)
  | warnInvalidRepoURL (chart : String)
  | errDownloadIndex (url : String)
  | errParseVersion (chart url : String)
  | errListIssues
  | infoCreatedIssue (title joinedAssignees : String)
  | errCreateIssue (title : String)
  | errMaintainersNotFound (path : String)
  | errMaintainersParse
  | infoNoSpecificMaintainers (group : String)
  | infoRunningOn (repo : String)
  | infoProcessingFile (path : String)
  | errReadValues (path : String)
  | warnSkipNotDict (name path : String)
  | warnMissingChart (name path : String)
  | infoComparison (name group declared latest : String)
  | infoFoundNew (name : String)
  | infoFoundMaintainers (group joinedAssignees : String)
  | infoIssueExists (number title : String)
  | errPreconditions
  | errMaintainersMissing (path : String)
  | noValuesFiles (chartsPath : String)
  | scriptFinished
deriving DecidableEq, Repr

/-- Output stream of the `print` of an event (stderr carries `file=sys.stderr`);
network events are attributed to no stream, arbitrarily rendered as stdout. -/
inductive Chan where
  | stdout
  | stderr
deriving DecidableEq

/-- Which stream each logging event of the source goes to. -/
def Ev.chan : Ev → Chan
  | .warnInvalidRepoURL _ => .stderr
  | .errDownloadIndex _ => .stderr
  | .errParseVersion _ _ => .stderr
  | .errListIssues => .stderr
  | .errCreateIssue _ => .stderr
  | .errMaintainersNotFound _ => .stderr
  | .errMaintainersParse => .stderr
  | .errReadValues _ => .stderr
  | .warnSkipNotDict _ _ => .stderr
  | .errPreconditions => .stderr
  | .errMaintainersMissing _ => .stderr
  | _ => .stdout

/-- `get_maintainers(file_path, app_group)`: reads the maintainers YAML file
through the filesystem oracle `fs`, looks up the group, falls back to the
`default` key when the group entry is absent or falsy, and returns `[]`
(logging to stderr) when the file is missing or reading/parsing fails —
including the `AttributeError` raised by `.get` on a non-dict document. -/
def get_maintainers (fs : String → FileRead) (file_path app_group : String) :
    YVal × List Ev :=
  match fs file_path with
  | .missing => (.list [], [.errMaintainersNotFound file_path])
  | .parseError => (.list [], [.errMaintainersParse])
  | .parsed v =>
    match ymGet v app_group (.list []) with
    | .error _ => (.list [], [.errMaintainersParse])
    | .ok assignees =>
      if assignees.truthy then (assignees, [])
      else
        match ymGet v "default" (.list []) with
        | .error _ => (.list [], [.errMaintainersParse])
        | .ok dflt => (dflt, [.infoNoSpecificMaintainers app_group])

/-- The index-document URL `repo_url.rstrip("/") + "/index.yaml"`. -/
def indexUrlOf (repo_url : String) : String :=
  repo_url.dropRightWhile (· == '/') ++ "/index.yaml"

/-- `get_latest_helm_version(repo_url, chart_name, repoPath)`: guard against an
absent/empty/`"null"` repository URL, otherwise fetch `<url>/index.yaml`
through the oracle and extract `entries[chart_name][0]["version"]`, logging a
transport error or a parse error and returning `None` on failure.
(`repoPath` is accepted and unused, as in the source.) -/
def get_latest_helm_version (fetch : String → FetchRes) (repo_url : Option String)
    (chart_name : String) (repoPath : String) : Option YVal × List Ev :=
  if repo_url.getD "" = "" || repo_url = some "null" then
    (none, [.warnInvalidRepoURL chart_name])
  else
    let index_url := indexUrlOf (repo_url.getD "")
    match fetch index_url with
    | .failure => (none, [.httpGet index_url, .errDownloadIndex index_url])
    | .success body =>
      match extractVersion body chart_name with
      | .ok v => (some v, [.httpGet index_url])
      | .error _ => (none, [.httpGet index_url, .errParseVersion chart_name index_url])

/-- A GitHub issue object as decoded from the JSON of a listing response. -/
def IssueObj := List (String × YVal)

/-- Python `issue.get(k)` on a decoded JSON object (default `None` = `none`). -/
def jget (i : IssueObj) (k : String) : Option YVal :=
  lookupKV i k

/-- The comparison `issue.get("title") == title` from `check_existing_issue`:
true exactly when the `title` field is the given string. -/
def isTitled (title : String) (i : IssueObj) : Bool :=
  match jget i "title" with
  | some (.str s) => s == title
  | _ => false

/-- Outcome of one GET of an issue-listing page (`requests.get`,
`raise_for_status`, `response.json()`): a `RequestException` or the decoded
list of issues. -/
inductive PageRes where
  | failure
  | success (issues : List IssueObj)

/-- Fixed GitHub API base URL of the source. -/
def API_URL : String := "https://api.github.com"

/-- The issues endpoint `f"{API_URL}/repos/{repo}/issues"`. -/
def issuesUrl (repo : String) : String :=
  API_URL ++ "/repos/" ++ repo ++ "/issues"

/-- `check_existing_issue(repo, token, title)`: walk the issue-listing pages
(the chain of tracker `Link` next-page headers, modelled as the list `pages`), return
the `number` field of the first issue whose title equals `title` exactly, stop
and return `None` on a transport failure, and return `None` when the pages are
exhausted.  One `listIssuesPage` event is emitted per page actually fetched. -/
def check_existing_issue (repo token title : String) :
    List PageRes → Option YVal × List Ev
  | [] => (none, [])
  | .failure :: _ => (none, [.listIssuesPage, .errListIssues])
  | .success issues :: rest =>
    match issues.find? (isTitled title) with
    | some issue => (jget issue "number", [.listIssuesPage])
    | none =>
      let r := check_existing_issue repo token title rest
      (r.1, .listIssuesPage :: r.2)

/-- External state and effects visible to one run: the chart-index fetcher,
the issue-listing pages currently served by the tracker, the filesystem, the
`Path(...).is_file()` result for the maintainers file, and whether an
issue-creation POST succeeds for a given title. -/
structure World where
  fetchIndex : String → FetchRes
  pages : List PageRes
  fs : String → FileRead
  maintainersIsFile : Bool
  createOk : String → Bool

/-- `create_github_issue(repo, token, title, body, assignees)`: one POST to
the issues endpoint, logging success (with the joined assignee list) or the
failure detail; never raises. -/
def create_github_issue (w : World) (repo token title body : String)
    (assignees : YVal) : List Ev :=
  if w.createOk title then
    [.httpPost (issuesUrl repo) title, .infoCreatedIssue title (pyJoin assignees)]
  else
    [.httpPost (issuesUrl repo) title, .errCreateIssue title]

/-- Per-application state machine outcome of the orchestrator inner loop. -/
inductive Outcome where
  | skippedNotDict
  | skippedNoChart
  | unresolved
  | noUpdate
  | updateExists
  | updateCreated
deriving DecidableEq, Repr

/-- An outcome in which the notification branch (the `if` at source line 202) was taken. -/
def Outcome.triggered : Outcome → Bool
  | .updateExists => true
  | .updateCreated => true
  | _ => false

/-- The declared version `str(details.get("targetRevision", ""))`. -/
def declaredOf (d : List (String × YVal)) : String :=
  pyStr ((lookupKV d "targetRevision").getD (.str ""))

/-- The condition `latest_version != target_revision and target_revision`
guarding the notification branch. -/
def pyNotify (latest : YVal) (target_revision : String) : Bool :=
  latest.neqStr target_revision && target_revision != ""

/-- The issue title `f"New Version Available: {name} {latest_version}"`. -/
def mkTitle (name : String) (latest : YVal) : String :=
  "New Version Available: " ++ name ++ " " ++ pyStr latest

/-- The issue body composed by the orchestrator before `create_github_issue`. -/
def mkBody (name target_revision latest value_file repo : String) : String :=
  "New version available for **" ++ name ++ "**!\n\n" ++
  "Current `targetRevision` set: `" ++ target_revision ++ "`\n" ++
  "New version available: `" ++ latest ++ "`\n\n" ++
  "Please consider creating a PR to update the `targetRevision` in this file: " ++
  "[" ++ value_file ++ "](https://github.com/" ++ repo ++ "/blob/main/" ++
  value_file ++ ")\n\nThanks."

/-- Truthiness of `existing_issue_number: Optional[int]`:
`None` is falsy, a returned number is truthy iff the value is truthy. -/
def optTruthy : Option YVal → Bool
  | none => false
  | some v => v.truthy

/-- The notification branch of the orchestrator (source lines 202–226): build
the title, look for an existing issue, and either log the existing issue or
resolve maintainers, compose the body, and create a new issue. -/
def handle_notify (w : World) (repo token maintainers_file app_group value_file
    name : String) (target_revision : String) (latest : YVal) : Outcome × List Ev :=
  let title := mkTitle name latest
  let chk := check_existing_issue repo token title w.pages
  if optTruthy chk.1 then
    (.updateExists, chk.2 ++ [.infoIssueExists (pyStr (chk.1.getD .null)) title])
  else
    let mnt := get_maintainers w.fs maintainers_file app_group
    let foundEvs := if mnt.1.truthy then
        [Ev.infoFoundMaintainers app_group (pyJoin mnt.1)] else []
    let body := mkBody name target_revision (pyStr latest) value_file repo
    (.updateCreated,
      chk.2 ++ [.infoFoundNew name] ++ mnt.2 ++ foundEvs ++
        create_github_issue w repo token title body mnt.1)

/-- One iteration of the orchestrator inner loop (source lines 176–226) for
the application `name` with raw YAML value `details`. -/
def process_details (w : World) (repo token maintainers_file app_group
    value_file name : String) (details : YVal) : Outcome × List Ev :=
  match details with
  | .map d =>
    let repo_url := getStr? d "repoURL"
    let target_revision := declaredOf d
    match getStr? d "chart" with
    | none => (.skippedNoChart, [.warnMissingChart name value_file])
    | some c =>
      if c = "" then (.skippedNoChart, [.warnMissingChart name value_file])
      else
        let res := get_latest_helm_version w.fetchIndex repo_url c c
        match res.1 with
        | none => (.unresolved, res.2)
        | some latest =>
          if latest.truthy then
            let evs := res.2 ++ [.infoComparison name app_group target_revision (pyStr latest)]
            if pyNotify latest target_revision then
              let r := handle_notify w repo token maintainers_file app_group
                value_file name target_revision latest
              (r.1, evs ++ r.2)
            else
              (.noUpdate, evs)
          else
            (.unresolved, res.2)
  | _ => (.skippedNotDict, [.warnSkipNotDict name value_file])

/-- A maintainers document is well-formed when every value of the mapping is a
list (of maintainer identifiers). -/
def MaintWF (m : List (String × YVal)) : Bool :=
  m.all fun kv =>
    match kv.2 with
    | .list _ => true
    | _ => false

/-- Modelled from the spec wording (section 8, for the C5 refinement): if the group
key exists with a non-empty list, exactly that list; otherwise the list under
the `default` key; and if `default` is also absent, the empty list. -/
def maintainersSpec (m : List (String × YVal)) (app_group : String) : YVal :=
  match lookupKV m app_group with
  | some (.list (a :: as)) => .list (a :: as)
  | _ => (lookupKV m "default").getD (.list [])

/-- Whether a listing page contains an issue with exactly the given title. -/
def pageHasMatch (title : String) (pg : List IssueObj) : Bool :=
  pg.any (isTitled title)

/-- Modelled from the spec wording (sections 4.3 and 8, for the C4 refinement): the
number of the first page-order issue whose title matches exactly, scanning the
concatenation of all pages, or none. -/
def findOpenIssueByTitleSpec (title : String) (ps : List (List IssueObj)) :
    Option YVal :=
  match ps.flatten.find? (isTitled title) with
  | some i => jget i "number"
  | none => none

/-- Modelled from the spec wording (for the C4 refinement): pages the client
must fetch — every page in next-link order up to and including the first page
containing a match, and all pages when no page matches. -/
def visitsSpec (title : String) : List (List IssueObj) → Nat
  | [] => 0
  | pg :: ps => if pageHasMatch title pg then 1 else 1 + visitsSpec title ps

/-- Example chart-index document listing one chart `mychart` whose newest
entry has version `v`. -/
def exIndexBody (v : String) : YVal :=
  .map [("entries", .map [("mychart", .list [.map [("version", .str v)]])])]

/-- Example fetch oracle serving `exIndexBody v` at every URL. -/
def exFetch (v : String) : String → FetchRes := fun _ => .success (exIndexBody v)

/-- Example application entry using chart `mychart` at revision `rev`. -/
def exApp (rev : YVal) : List (String × YVal) :=
  [("repoURL", .str "https://charts.example.org"), ("chart", .str "mychart"),
   ("targetRevision", rev)]

/-- Example issue object with the given title and `number` field. -/
def exIssue (title : String) (n : YVal) : IssueObj :=
  [("title", .str title), ("number", n)]

/-- Example world: upstream version `v`, listing pages `pages`, no
maintainers file content, create always succeeds. -/
def exWorld (v : String) (pages : List PageRes) : World :=
  ⟨exFetch v, pages, fun _ => FileRead.missing, true, fun _ => true⟩

end VersionChecker

namespace VersionChecker

/-- Both branches of the notification handler produce a triggered outcome. -/
theorem handle_notify_triggered (w : World) (repo token mf g vf name tr : String)
    (latest : YVal) :
    (handle_notify w repo token mf g vf name tr latest).1.triggered = true := by
  simp only [handle_notify]
  split <;> rfl

/-- The chart-version resolver never POSTs. -/
theorem glv_no_post (fetch : String → FetchRes) (ru : Option String)
    (c rp u t : String) :
    Ev.httpPost u t ∉ (get_latest_helm_version fetch ru c rp).2 := by
  simp only [get_latest_helm_version]
  split
  · simp
  · split <;> [skip; split] <;> simp

/-- The issue search never POSTs. -/
theorem check_no_post (repo token title u t : String) (pages : List PageRes) :
    Ev.httpPost u t ∉ (check_existing_issue repo token title pages).2 := by
  induction pages with
  | nil => simp [check_existing_issue]
  | cons pg rest ih =>
    cases pg with
    | failure => simp [check_existing_issue]
    | success issues =>
      simp only [check_existing_issue]
      split
      · simp
      · simpa using ih

/-- The maintainers lookup never POSTs. -/
theorem gm_no_post (fs : String → FileRead) (path group u t : String) :
    Ev.httpPost u t ∉ (get_maintainers fs path group).2 := by
  simp only [get_maintainers]
  split
  · simp
  · simp
  · split
    · simp
    · split
      · simp
      · split <;> simp

/-- In a well-formed maintainers document every stored value is a list. -/
theorem maintWF_lookup {m : List (String × YVal)} (hwf : MaintWF m = true)
    {k : String} {v : YVal} (h : lookupKV m k = some v) :
    ∃ xs, v = .list xs := by
  induction m with
  | nil => simp [lookupKV] at h
  | cons kv rest ih =>
    simp only [MaintWF, List.all_cons, Bool.and_eq_true] at hwf
    simp only [lookupKV] at h
    split at h
    · cases h
      rcases hkv : kv.2 with _ | _ | _ | xs | _ <;> rw [hkv] at hwf <;>
        simp at hwf ⊢
    · exact ih (by simpa [MaintWF] using hwf.2) h

/-- C5: with a readable well-formed maintainers file the lookup returns the
group list when non-empty, else the `default` list, else `[]`; a missing file
or a parse failure logs to stderr and returns `[]`. -/
theorem C5_maintainer_lookup :
    (∀ (fs : String → FileRead) (path group : String) (m : List (String × YVal)),
      fs path = .parsed (.map m) → MaintWF m = true →
      (get_maintainers fs path group).1 = maintainersSpec m group) ∧
    (∀ (fs : String → FileRead) (path group : String), fs path = .missing →
      get_maintainers fs path group = (.list [], [.errMaintainersNotFound path]) ∧
      (Ev.errMaintainersNotFound path).chan = .stderr) ∧
    (∀ (fs : String → FileRead) (path group : String), fs path = .parseError →
      get_maintainers fs path group = (.list [], [.errMaintainersParse]) ∧
      Ev.errMaintainersParse.chan = .stderr) := by
  refine ⟨?_, ?_, ?_⟩
  · intro fs path group m hfs hwf
    simp only [get_maintainers, hfs, ymGet]
    rcases h : lookupKV m group with _ | v
    · simp [maintainersSpec, h, YVal.truthy]
    · rcases maintWF_lookup hwf h with ⟨xs, rfl⟩
      rcases xs with _ | ⟨a, as⟩
      · simp [maintainersSpec, h, YVal.truthy]
      · simp [maintainersSpec, h, YVal.truthy]
  · intro fs path group hfs
    simp [get_maintainers, hfs, Ev.chan]
  · intro fs path group hfs
    simp [get_maintainers, hfs, Ev.chan]

/-- Witness for C5 on the test fixtures: a specific group, the default
fallback, a missing file, and a parse failure. -/
theorem C5_maintainer_lookup_witness :
    ((fun p => if p = "M.yaml" then
        FileRead.parsed (.map [("default", .list [.str "gh-user1"]),
          ("firsttest-apps", .list [.str "gh-user2"])]) else .missing) "M.yaml" =
      FileRead.parsed (.map [("default", .list [.str "gh-user1"]),
        ("firsttest-apps", .list [.str "gh-user2"])])) ∧
    (get_maintainers (fun p => if p = "M.yaml" then
        FileRead.parsed (.map [("default", .list [.str "gh-user1"]),
          ("firsttest-apps", .list [.str "gh-user2"])]) else .missing)
        "M.yaml" "firsttest-apps").1 =
      maintainersSpec [("default", .list [.str "gh-user1"]),
        ("firsttest-apps", .list [.str "gh-user2"])] "firsttest-apps" ∧
    (get_maintainers (fun p => if p = "M.yaml" then
        FileRead.parsed (.map [("default", .list [.str "gh-user1"]),
          ("firsttest-apps", .list [.str "gh-user2"])]) else .missing)
        "M.yaml" "secondtest-apps").1 =
      maintainersSpec [("default", .list [.str "gh-user1"]),
        ("firsttest-apps", .list [.str "gh-user2"])] "secondtest-apps" ∧
    get_maintainers (fun _ => FileRead.missing) "nonexistent/file.yaml" "any-app" =
      (.list [], [.errMaintainersNotFound "nonexistent/file.yaml"]) ∧
    get_maintainers (fun _ => FileRead.parseError) "M.yaml" "any-app" =
      (.list [], [.errMaintainersParse]) := by
  refine ⟨by simp, ?_, ?_, ?_, ?_⟩
  · exact C5_maintainer_lookup.1 _ "M.yaml" "firsttest-apps" _ (by simp) (by rfl)
  · exact C5_maintainer_lookup.1 _ "M.yaml" "secondtest-apps" _ (by simp) (by rfl)
  · exact (C5_maintainer_lookup.2.1 _ "nonexistent/file.yaml" "any-app" rfl).1
  · exact (C5_maintainer_lookup.2.2 _ "M.yaml" "any-app" rfl).1

/-- C10: when the maintainers file exists but its parsed content is not a
mapping, the failing `.get` attribute access is caught, an error is logged,
and the empty list is returned (the model is total, so nothing escapes). -/
theorem C10_maintainers_non_mapping (fs : String → FileRead)
    (path group : String) (v : YVal) (h1 : fs path = .parsed v)
    (h2 : v.isMap = false) :
    get_maintainers fs path group = (.list [], [.errMaintainersParse]) ∧
    Ev.errMaintainersParse.chan = .stderr := by
  constructor
  · simp only [get_maintainers, h1]
    rcases v with _ | _ | _ | _ | kvs
    · rfl
    · rfl
    · rfl
    · rfl
    · simp [YVal.isMap] at h2
  · rfl

/-- Witness for C10: an empty maintainers file parses to YAML `null`. -/
theorem C10_maintainers_non_mapping_witness :
    ((fun _ => FileRead.parsed .null) "M.yaml" = FileRead.parsed .null) ∧
    YVal.null.isMap = false ∧
    get_maintainers (fun _ => FileRead.parsed .null) "M.yaml" "any-app" =
      (.list [], [.errMaintainersParse]) := by
  refine ⟨rfl, rfl, ?_⟩
  exact (C10_maintainers_non_mapping (fun _ => FileRead.parsed .null)
    "M.yaml" "any-app" .null rfl rfl).1

/-- C6: with an absent, empty, or literal-"null" repository URL, resolution
returns "not found" at once, emits only a stderr warning, and performs no
network call. -/
theorem C6_invalid_repo_url (fetch : String → FetchRes) (chart rp : String)
    (ru : Option String) (h : ru = none ∨ ru = some "" ∨ ru = some "null") :
    get_latest_helm_version fetch ru chart rp =
      (none, [.warnInvalidRepoURL chart]) ∧
    (∀ u, Ev.httpGet u ∉ (get_latest_helm_version fetch ru chart rp).2) ∧
    (Ev.warnInvalidRepoURL chart).chan = .stderr := by
  have hres : get_latest_helm_version fetch ru chart rp =
      (none, [.warnInvalidRepoURL chart]) := by
    rcases h with rfl | rfl | rfl <;> simp [get_latest_helm_version]
  refine ⟨hres, ?_, rfl⟩
  intro u
  rw [hres]
  simp

/-- Witness for C6 at the literal string "null" (and a fetch oracle that
would serve an index if it were ever consulted). -/
theorem C6_invalid_repo_url_witness :
    (some "null" = none ∨ some "null" = some "" ∨
      (some "null" : Option String) = some "null") ∧
    get_latest_helm_version (exFetch "v2") (some "null") "some-chart" "p" =
      (none, [.warnInvalidRepoURL "some-chart"]) := by
  refine ⟨by simp, ?_⟩
  exact (C6_invalid_repo_url (exFetch "v2") "some-chart" "p" (some "null")
    (by simp)).1

/-- C7: on a successful fetch the resolver returns exactly
`entries[chart_name][0]["version"]`; when the chart is absent, its entry list
is empty, or the lookup otherwise fails, it logs a parse-level stderr error
(not the transport error) and returns "not found". -/
theorem C7_success_extraction (fetch : String → FetchRes) (u chart rp : String)
    (body : YVal) (hu1 : u ≠ "") (hu2 : u ≠ "null")
    (hf : fetch (indexUrlOf u) = .success body) :
    (∀ v, extractVersion body chart = .ok v →
      get_latest_helm_version fetch (some u) chart rp =
        (some v, [.httpGet (indexUrlOf u)])) ∧
    (extractVersion body chart = .error () →
      get_latest_helm_version fetch (some u) chart rp =
        (none, [.httpGet (indexUrlOf u), .errParseVersion chart (indexUrlOf u)]) ∧
      Ev.errDownloadIndex (indexUrlOf u) ∉
        (get_latest_helm_version fetch (some u) chart rp).2 ∧
      (Ev.errParseVersion chart (indexUrlOf u)).chan = .stderr) ∧
    (∀ em, subscriptStr body "entries" = .ok (.map em) →
      lookupKV em chart = none → extractVersion body chart = .error ()) ∧
    (∀ em, subscriptStr body "entries" = .ok (.map em) →
      lookupKV em chart = some (.list []) →
      extractVersion body chart = .error ()) ∧
    (∀ em e rest v, subscriptStr body "entries" = .ok (.map em) →
      lookupKV em chart = some (.list (e :: rest)) →
      subscriptStr e "version" = .ok v → extractVersion body chart = .ok v) := by
  refine ⟨?_, ?_, ?_, ?_, ?_⟩
  · intro v hv
    simp [get_latest_helm_version, hu1, hu2, hf, hv]
  · intro he
    have hres : get_latest_helm_version fetch (some u) chart rp =
        (none, [.httpGet (indexUrlOf u), .errParseVersion chart (indexUrlOf u)]) := by
      simp [get_latest_helm_version, hu1, hu2, hf, he]
    refine ⟨hres, ?_, rfl⟩
    rw [hres]
    simp
  · intro em hent hlook
    have h2 : subscriptStr (.map em) chart = .error () := by
      simp [subscriptStr, hlook]
    simp only [extractVersion, hent, h2]
  · intro em hent hlook
    have h2 : subscriptStr (.map em) chart = .ok (.list []) := by
      simp [subscriptStr, hlook]
    simp only [extractVersion, hent, h2, subscriptZero]
  · intro em e rest v hent hlook hv
    have h2 : subscriptStr (.map em) chart = .ok (.list (e :: rest)) := by
      simp [subscriptStr, hlook]
    simp only [extractVersion, hent, h2, subscriptZero, hv]

/-- Witness for C7 on the one-chart index fixture: extraction returns the
listed version, and an unknown chart yields the parse-level error. -/
theorem C7_success_extraction_witness :
    exFetch "v1.19.1" (indexUrlOf "https://charts.example.org") =
      .success (exIndexBody "v1.19.1") ∧
    get_latest_helm_version (exFetch "v1.19.1")
      (some "https://charts.example.org") "mychart" "p" =
      (some (.str "v1.19.1"),
        [.httpGet (indexUrlOf "https://charts.example.org")]) ∧
    extractVersion (exIndexBody "v1.19.1") "chart-does-not-exist" = .error () ∧
    get_latest_helm_version (exFetch "v1.19.1")
      (some "https://charts.example.org") "chart-does-not-exist" "p" =
      (none, [.httpGet (indexUrlOf "https://charts.example.org"),
        .errParseVersion "chart-does-not-exist"
          (indexUrlOf "https://charts.example.org")]) := by
  have h := C7_success_extraction (exFetch "v1.19.1")
    "https://charts.example.org" "mychart" "p" (exIndexBody "v1.19.1")
    (by simp) (by simp) rfl
  have h2 := C7_success_extraction (exFetch "v1.19.1")
    "https://charts.example.org" "chart-does-not-exist" "p"
    (exIndexBody "v1.19.1") (by simp) (by simp) rfl
  refine ⟨rfl, ?_, ?_, ?_⟩
  · exact h.1 (.str "v1.19.1") rfl
  · rfl
  · exact (h2.2.1 rfl).1

/-- C4: over any failure-free chain of listing pages, the search result equals
the spec-side first-page-order match (exact, case-sensitive title equality)
and the client fetches exactly the pages up to and including the first
matching one — all of them when no page matches. -/
theorem C4_pagination (repo token title : String) (ps : List (List IssueObj)) :
    (check_existing_issue repo token title (ps.map .success)).1 =
      findOpenIssueByTitleSpec title ps ∧
    ((check_existing_issue repo token title (ps.map .success)).2.count
      .listIssuesPage = visitsSpec title ps) := by
  induction ps with
  | nil => simp [check_existing_issue, findOpenIssueByTitleSpec, visitsSpec]
  | cons pg rest ih =>
    cases hf : pg.find? (isTitled title) with
    | some i =>
      have hmem := List.mem_of_find?_eq_some hf
      have hp := List.find?_some hf
      have hmatch : pageHasMatch title pg = true :=
        List.any_eq_true.mpr ⟨i, hmem, hp⟩
      constructor
      · simp [check_existing_issue, hf, findOpenIssueByTitleSpec,
          List.find?_append, Option.or]
      · simp [check_existing_issue, hf, visitsSpec, hmatch]
    | none =>
      have hmatch : pageHasMatch title pg = false := by
        rw [pageHasMatch, List.any_eq_false]
        intro x hx
        exact (List.find?_eq_none.mp hf) x hx
      constructor
      · simpa [check_existing_issue, hf, findOpenIssueByTitleSpec,
          List.find?_append, Option.or] using ih.1
      · simpa [check_existing_issue, hf, visitsSpec, hmatch,
          Nat.add_comm] using ih.2

/-- Witness-style instance of C4 on the pagination fixture of the test suite:
the match on page two is returned and both pages are visited. -/
theorem C4_pagination_witness :
    (check_existing_issue "test-owner/test-repo" "fake-token"
      "New Version Available: my-chart 1.2.3"
      ([[ [("title", YVal.str "Wrong issue"), ("number", YVal.int 111)] ],
        [ [("title", YVal.str "New Version Available: my-chart 1.2.3"),
           ("number", YVal.int 123)] ]].map .success)).1 =
      findOpenIssueByTitleSpec "New Version Available: my-chart 1.2.3"
        [[ [("title", YVal.str "Wrong issue"), ("number", YVal.int 111)] ],
         [ [("title", YVal.str "New Version Available: my-chart 1.2.3"),
            ("number", YVal.int 123)] ]] ∧
    findOpenIssueByTitleSpec "New Version Available: my-chart 1.2.3"
      [[ [("title", YVal.str "Wrong issue"), ("number", YVal.int 111)] ],
       [ [("title", YVal.str "New Version Available: my-chart 1.2.3"),
          ("number", YVal.int 123)] ]] = some (.int 123) := by
  refine ⟨?_, rfl⟩
  exact (C4_pagination "test-owner/test-repo" "fake-token"
    "New Version Available: my-chart 1.2.3" _).1

/-- The notification guard on a string latest version is exactly string
inequality plus non-emptiness of the declared version. -/
theorem pyNotify_str (s t : String) :
    pyNotify (.str s) t = true ↔ (s ≠ t ∧ t ≠ "") := by
  simp [pyNotify, YVal.neqStr]

/-- The notification handler when the issue search returns a truthy number:
log the existing issue and stop. -/
theorem handle_notify_exists (w : World) (repo token mf g vf name tr : String)
    (latest : YVal)
    (hopt : optTruthy
      (check_existing_issue repo token (mkTitle name latest) w.pages).1 = true) :
    handle_notify w repo token mf g vf name tr latest =
      (.updateExists,
        (check_existing_issue repo token (mkTitle name latest) w.pages).2 ++
        [.infoIssueExists
          (pyStr ((check_existing_issue repo token
            (mkTitle name latest) w.pages).1.getD .null))
          (mkTitle name latest)]) := by
  simp only [handle_notify, hopt, if_true]

/-- The notification handler when the issue search returns `None` or a falsy
number: resolve maintainers, compose the body, and create the issue. -/
theorem handle_notify_create (w : World) (repo token mf g vf name tr : String)
    (latest : YVal)
    (hopt : optTruthy
      (check_existing_issue repo token (mkTitle name latest) w.pages).1 = false) :
    handle_notify w repo token mf g vf name tr latest =
      (.updateCreated,
        (check_existing_issue repo token (mkTitle name latest) w.pages).2 ++
        [.infoFoundNew name] ++ (get_maintainers w.fs mf g).2 ++
        (if (get_maintainers w.fs mf g).1.truthy then
          [Ev.infoFoundMaintainers g (pyJoin (get_maintainers w.fs mf g).1)]
        else []) ++
        create_github_issue w repo token (mkTitle name latest)
          (mkBody name tr (pyStr latest) vf repo) (get_maintainers w.fs mf g).1) := by
  simp only [handle_notify, hopt, Bool.false_eq_true, if_false]

/-- Issue creation always POSTs its title to the issues endpoint. -/
theorem create_has_post (w : World) (repo token title body : String) (a : YVal) :
    Ev.httpPost (issuesUrl repo) title ∈
      create_github_issue w repo token title body a := by
  simp only [create_github_issue]
  split <;> simp

/-- The inner loop on a well-formed application whose latest version resolves
to a truthy string: print the comparison, then notify or fall through. -/
theorem process_details_resolved (w : World) (repo token mf g vf name : String)
    (d : List (String × YVal)) (c s : String)
    (hc : getStr? d "chart" = some c) (hc0 : c ≠ "")
    (hres : (get_latest_helm_version w.fetchIndex
      (getStr? d "repoURL") c c).1 = some (.str s)) (hs : s ≠ "") :
    process_details w repo token mf g vf name (.map d) =
      (if pyNotify (.str s) (declaredOf d) then
        ((handle_notify w repo token mf g vf name (declaredOf d) (.str s)).1,
          (get_latest_helm_version w.fetchIndex (getStr? d "repoURL") c c).2 ++
          [.infoComparison name g (declaredOf d) s] ++
          (handle_notify w repo token mf g vf name (declaredOf d) (.str s)).2)
      else
        (.noUpdate,
          (get_latest_helm_version w.fetchIndex (getStr? d "repoURL") c c).2 ++
          [.infoComparison name g (declaredOf d) s])) := by
  simp only [process_details, hc, hc0, hres]
  simp [YVal.truthy, hs, pyStr]

/-- C3: a transport failure at any page makes the search return "none", with
the listing error logged, and the orchestrator then proceeds as if no issue
existed — it calls create-issue rather than aborting or skipping. -/
theorem C3_listing_failure (repo token title : String)
    (pre : List (List IssueObj)) (rest : List PageRes)
    (hpre : ∀ pg ∈ pre, pageHasMatch title pg = false) :
    ((check_existing_issue repo token title
        (pre.map .success ++ .failure :: rest)).1 = none ∧
      Ev.errListIssues ∈ (check_existing_issue repo token title
        (pre.map .success ++ .failure :: rest)).2) ∧
    (∀ (w : World) (mf g vf name : String) (d : List (String × YVal))
        (c s : String),
      w.pages = pre.map .success ++ .failure :: rest →
      title = mkTitle name (.str s) →
      getStr? d "chart" = some c → c ≠ "" →
      (get_latest_helm_version w.fetchIndex
        (getStr? d "repoURL") c c).1 = some (.str s) →
      s ≠ "" →
      pyNotify (.str s) (declaredOf d) = true →
      (process_details w repo token mf g vf name (.map d)).1 = .updateCreated ∧
      Ev.httpPost (issuesUrl repo) title ∈
        (process_details w repo token mf g vf name (.map d)).2) := by
  have part1 : (check_existing_issue repo token title
      (pre.map .success ++ .failure :: rest)).1 = none ∧
      Ev.errListIssues ∈ (check_existing_issue repo token title
        (pre.map .success ++ .failure :: rest)).2 := by
    induction pre with
    | nil => simp [check_existing_issue]
    | cons pg pre' ih =>
      have hm : pageHasMatch title pg = false := hpre pg (by simp)
      have hf : pg.find? (isTitled title) = none := by
        rw [List.find?_eq_none]
        intro x hx
        rw [pageHasMatch, List.any_eq_false] at hm
        exact hm x hx
      have ih2 := ih (fun pg h => hpre pg (by simp [h]))
      constructor
      · simpa [check_existing_issue, hf] using ih2.1
      · simpa [check_existing_issue, hf] using ih2.2
  refine ⟨part1, ?_⟩
  intro w mf g vf name d c s hw ht hc hc0 hres hs hp
  have h1 : (check_existing_issue repo token
      (mkTitle name (.str s)) w.pages).1 = none := by
    rw [hw, ← ht]
    exact part1.1
  have hopt : optTruthy (check_existing_issue repo token
      (mkTitle name (.str s)) w.pages).1 = false := by
    rw [h1]
    rfl
  rw [process_details_resolved w repo token mf g vf name d c s hc hc0 hres hs]
  rw [handle_notify_create w repo token mf g vf name (declaredOf d)
    (.str s) hopt]
  simp only [hp, if_true]
  refine ⟨by simp, ?_⟩
  rw [ht]
  have hcp := create_has_post w repo token (mkTitle name (.str s))
    (mkBody name (declaredOf d) (pyStr (.str s)) vf repo)
    (get_maintainers w.fs mf g).1
  simp [List.mem_append]
  tauto

/-- Witness for C3: one clean page without the title, then a failing page;
the search returns "none" and the orchestrator creates the issue. -/
theorem C3_listing_failure_witness :
    (∀ pg ∈ [[exIssue "Wrong issue" (.int 111)]],
      pageHasMatch (mkTitle "myapp" (.str "v2")) pg = false) ∧
    (check_existing_issue "o/r" "tok" (mkTitle "myapp" (.str "v2"))
      ([[exIssue "Wrong issue" (.int 111)]].map .success ++
        .failure :: [])).1 = none ∧
    (process_details
      (exWorld "v2" [.success [exIssue "Wrong issue" (.int 111)], .failure])
      "o/r" "tok" "M.yaml" "g" "f" "myapp" (.map (exApp (.str "v1")))).1 =
      .updateCreated ∧
    Ev.httpPost (issuesUrl "o/r") (mkTitle "myapp" (.str "v2")) ∈
      (process_details
        (exWorld "v2" [.success [exIssue "Wrong issue" (.int 111)], .failure])
        "o/r" "tok" "M.yaml" "g" "f" "myapp" (.map (exApp (.str "v1")))).2 := by
  have hpre : ∀ pg ∈ [[exIssue "Wrong issue" (.int 111)]],
      pageHasMatch (mkTitle "myapp" (.str "v2")) pg = false := by
    decide
  have h := C3_listing_failure "o/r" "tok" (mkTitle "myapp" (.str "v2"))
    [[exIssue "Wrong issue" (.int 111)]] [] hpre
  have h2 := h.2 (exWorld "v2" [.success [exIssue "Wrong issue" (.int 111)],
      .failure]) "M.yaml" "g" "f" "myapp" (exApp (.str "v1")) "mychart" "v2"
    rfl rfl rfl (by decide) rfl (by decide) (by decide)
  exact ⟨hpre, h.1.1, h2.1, h2.2⟩

/-- C1: for a processed application (well-formed details, resolved truthy
string latest version), the notification triggers iff the latest version
differs from the declared version as strings and the declared version is
non-empty. -/
theorem C1_notification_trigger (w : World) (repo token mf g vf name : String)
    (d : List (String × YVal)) (c s : String)
    (hc : getStr? d "chart" = some c) (hc0 : c ≠ "")
    (hres : (get_latest_helm_version w.fetchIndex
      (getStr? d "repoURL") c c).1 = some (.str s)) (hs : s ≠ "") :
    (process_details w repo token mf g vf name (.map d)).1.triggered = true ↔
      (s ≠ declaredOf d ∧ declaredOf d ≠ "") := by
  rw [process_details_resolved w repo token mf g vf name d c s hc hc0 hres hs]
  rw [← pyNotify_str s (declaredOf d)]
  by_cases hp : pyNotify (.str s) (declaredOf d) = true
  · simp [hp, handle_notify_triggered]
  · have hp' : pyNotify (.str s) (declaredOf d) = false :=
      Bool.not_eq_true _ ▸ (by simpa using hp)
    simp [hp', Outcome.triggered]

/-- Witness for C1: the three truth-table rows — empty declared version never
triggers, equal versions never trigger, differing versions trigger. -/
theorem C1_notification_trigger_witness :
    (process_details (exWorld "v2" [.success []]) "o/r" "tok" "M.yaml" "g" "f"
      "app" (.map (exApp (.str "")))).1.triggered = false ∧
    (process_details (exWorld "v1" [.success []]) "o/r" "tok" "M.yaml" "g" "f"
      "app" (.map (exApp (.str "v1")))).1.triggered = false ∧
    (process_details (exWorld "v2" [.success []]) "o/r" "tok" "M.yaml" "g" "f"
      "app" (.map (exApp (.str "v1")))).1.triggered = true := by
  have h1 := C1_notification_trigger (exWorld "v2" [.success []]) "o/r" "tok"
    "M.yaml" "g" "f" "app" (exApp (.str "")) "mychart" "v2"
    rfl (by decide) rfl (by decide)
  have h2 := C1_notification_trigger (exWorld "v1" [.success []]) "o/r" "tok"
    "M.yaml" "g" "f" "app" (exApp (.str "v1")) "mychart" "v1"
    rfl (by decide) rfl (by decide)
  have h3 := C1_notification_trigger (exWorld "v2" [.success []]) "o/r" "tok"
    "M.yaml" "g" "f" "app" (exApp (.str "v1")) "mychart" "v2"
    rfl (by decide) rfl (by decide)
  refine ⟨?_, ?_, ?_⟩
  · have : declaredOf (exApp (.str "")) = "" := rfl
    rw [this] at h1
    simpa using h1
  · have : declaredOf (exApp (.str "v1")) = "v1" := rfl
    rw [this] at h2
    simpa using h2
  · have : declaredOf (exApp (.str "v1")) = "v1" := rfl
    rw [this] at h3
    exact h3.mpr (by decide)

/-- C9: a present-but-null `targetRevision` is coerced by `str()` to the
non-empty string "None", so the application triggers a notification whenever
the resolved latest version differs from "None". -/
theorem C9_null_target_revision (w : World) (repo token mf g vf name : String)
    (d : List (String × YVal)) (c s : String)
    (hc : getStr? d "chart" = some c) (hc0 : c ≠ "")
    (hres : (get_latest_helm_version w.fetchIndex
      (getStr? d "repoURL") c c).1 = some (.str s)) (hs : s ≠ "")
    (hnull : lookupKV d "targetRevision" = some .null) (hsn : s ≠ "None") :
    declaredOf d = "None" ∧
    (process_details w repo token mf g vf name (.map d)).1.triggered = true := by
  have hd : declaredOf d = "None" := by
    simp [declaredOf, hnull, pyStr]
  refine ⟨hd, ?_⟩
  rw [process_details_resolved w repo token mf g vf name d c s hc hc0 hres hs]
  have hp : pyNotify (.str s) (declaredOf d) = true :=
    (pyNotify_str s (declaredOf d)).mpr ⟨by rw [hd]; exact hsn, by rw [hd]; decide⟩
  simp [hp, handle_notify_triggered]

/-- Witness for C9: an application whose `targetRevision` is YAML null, with
upstream version "v9.9.9", gets declared version "None" and triggers. -/
theorem C9_null_target_revision_witness :
    lookupKV (exApp .null) "targetRevision" = some .null ∧
    declaredOf (exApp .null) = "None" ∧
    (process_details (exWorld "v9.9.9" [.success []]) "o/r" "tok" "M.yaml" "g"
      "f" "app" (.map (exApp .null))).1.triggered = true := by
  have h := C9_null_target_revision (exWorld "v9.9.9" [.success []]) "o/r"
    "tok" "M.yaml" "g" "f" "app" (exApp .null) "mychart" "v9.9.9"
    rfl (by decide) rfl (by decide) rfl (by decide)
  exact ⟨rfl, h.1, h.2⟩

/-- C2 (amended): when the issue search finds the exactly-titled issue and
returns a truthy number for it, the orchestrator logs the existing issue and
never POSTs a create request, so a rerun with an already-created issue (whose
tracker-assigned number is truthy) creates no second issue. -/
theorem C2_existing_issue_short_circuit (w : World)
    (repo token mf g vf name : String) (d : List (String × YVal))
    (c s : String) (n : YVal)
    (hc : getStr? d "chart" = some c) (hc0 : c ≠ "")
    (hres : (get_latest_helm_version w.fetchIndex
      (getStr? d "repoURL") c c).1 = some (.str s)) (hs : s ≠ "")
    (hfound : (check_existing_issue repo token
      (mkTitle name (.str s)) w.pages).1 = some n)
    (hn : n.truthy = true) :
    (∀ u t, Ev.httpPost u t ∉
      (process_details w repo token mf g vf name (.map d)).2) ∧
    (process_details w repo token mf g vf name (.map d)).1 ≠ .updateCreated := by
  have hopt : optTruthy (check_existing_issue repo token
      (mkTitle name (.str s)) w.pages).1 = true := by
    rw [hfound]
    exact hn
  rw [process_details_resolved w repo token mf g vf name d c s hc hc0 hres hs]
  rw [handle_notify_exists w repo token mf g vf name (declaredOf d)
    (.str s) hopt]
  by_cases hp : pyNotify (.str s) (declaredOf d) = true
  · simp only [hp, if_true]
    constructor
    · intro u t
      simp [List.mem_append, glv_no_post, check_no_post]
    · simp
  · have hp' : pyNotify (.str s) (declaredOf d) = false :=
      Bool.not_eq_true _ ▸ (by simpa using hp)
    simp only [hp', Bool.false_eq_true, if_false]
    constructor
    · intro u t
      simp [List.mem_append, glv_no_post]
    · simp

/-- Witness for C2 (amended) on a tracker that already holds the issue with
number 123: the search finds it and no POST happens. -/
theorem C2_existing_issue_short_circuit_witness :
    (check_existing_issue "o/r" "tok" (mkTitle "myapp" (.str "v2"))
      [.success [exIssue (mkTitle "myapp" (.str "v2")) (.int 123)]]).1 =
      some (.int 123) ∧
    (∀ u t, Ev.httpPost u t ∉
      (process_details
        (exWorld "v2" [.success [exIssue (mkTitle "myapp" (.str "v2")) (.int 123)]])
        "o/r" "tok" "M.yaml" "g" "f" "myapp" (.map (exApp (.str "v1")))).2) ∧
    (process_details
      (exWorld "v2" [.success [exIssue (mkTitle "myapp" (.str "v2")) (.int 123)]])
      "o/r" "tok" "M.yaml" "g" "f" "myapp" (.map (exApp (.str "v1")))).1 ≠
      .updateCreated := by
  have h := C2_existing_issue_short_circuit
    (exWorld "v2" [.success [exIssue (mkTitle "myapp" (.str "v2")) (.int 123)]])
    "o/r" "tok" "M.yaml" "g" "f" "myapp" (exApp (.str "v1")) "mychart" "v2"
    (.int 123) rfl (by decide) rfl (by decide) rfl (by decide)
  exact ⟨rfl, h.1, h.2⟩

/-- Counterexample to C2 as stated: the tracker serves an open issue whose
title matches the searched title exactly but whose `number` field is 0; the
search finds it and returns 0, yet — because the code tests the number for
truthiness, not the find for success — create-issue IS called. -/
theorem C2_counterexample :
    pageHasMatch (mkTitle "myapp" (.str "v2"))
      [exIssue (mkTitle "myapp" (.str "v2")) (.int 0)] = true ∧
    (check_existing_issue "o/r" "tok" (mkTitle "myapp" (.str "v2"))
      [.success [exIssue (mkTitle "myapp" (.str "v2")) (.int 0)]]).1 =
      some (.int 0) ∧
    Ev.httpPost (issuesUrl "o/r") (mkTitle "myapp" (.str "v2")) ∈
      (process_details
        (exWorld "v2" [.success [exIssue (mkTitle "myapp" (.str "v2")) (.int 0)]])
        "o/r" "tok" "M.yaml" "g" "f" "myapp" (.map (exApp (.str "v1")))).2 ∧
    (process_details
      (exWorld "v2" [.success [exIssue (mkTitle "myapp" (.str "v2")) (.int 0)]])
      "o/r" "tok" "M.yaml" "g" "f" "myapp" (.map (exApp (.str "v1")))).1 =
      .updateCreated := by
  refine ⟨by decide, rfl, by decide, rfl⟩

end VersionChecker
